import Mathlib

/-!
Shallow embedding of the music-player widget in `src/src/App.tsx`
(`MusicCard` component plus its handlers and effects).

Modelling conventions:
* JavaScript numbers are modelled as rationals (`ℚ`); the only NaN the
  widget ever formats is an unknown media duration, so `formatTime` takes
  an `Option ℚ` whose `none` stands for NaN.
* `WidgetState` mirrors the six `useState` cells of `MusicCard`;
  `AudioState` models the observable surface of the underlying
  `HTMLAudioElement` (currentTime, duration, volume, paused).
* Each React handler becomes a pure function on these states; the two
  `useEffect` bodies that push state into the audio element become
  `isPlayingEffect` and `volumeEffect`.  The asynchronous outcome of
  `audio.play()` is a `PlayResult`; `console.error` is modelled as
  appending to a diagnostic log.
* `step` is the event-step machine over the combined state: DOM/media
  events drive the five listeners registered by the first effect, user
  gestures drive the click handlers, and effect runs and external media
  changes are explicit events.  This over-approximates React's actual
  scheduling (any event may arrive at any time), which is sound for the
  safety properties proved below.
* The listener add/remove lifecycle of the first effect is modelled by a
  registry of (element, event-name, effect-run) triples: each effect run
  registers five distinct closures and its cleanup removes exactly those.
-/

namespace MusicApp

/-- The six `useState` cells of `MusicCard`, in source order. -/
structure WidgetState where
  isPlaying : Bool
  currentTime : ℚ
  duration : ℚ
  volume : ℤ
  isLiked : Bool
  isLoading : Bool
deriving DecidableEq, Repr

/-- The initial values passed to `useState`:
`false, 0, 0, 75, false, false`. -/
def initWidget : WidgetState :=
  { isPlaying := false
    currentTime := 0
    duration := 0
    volume := 75
    isLiked := false
    isLoading := false }

/-- Observable state of the `HTMLAudioElement` behind `audioRef`. -/
structure AudioState where
  currentTime : ℚ
  duration : ℚ
  volume : ℚ
  paused : Bool
deriving DecidableEq, Repr

/-- Outcome of the promise returned by `audio.play()`. -/
inductive PlayResult where
  | fulfilled : PlayResult
  | rejected : String → PlayResult
deriving DecidableEq, Repr

/-- `handlePlayPause`: `if (isLoading) return; setIsPlaying(!isPlaying);` -/
def handlePlayPause (w : WidgetState) : WidgetState :=
  if w.isLoading then w else { w with isPlaying := !w.isPlaying }

/-- `handleProgressClick`: no-op when `!duration`; otherwise
`newTime = ((clientX - rect.left) / rect.width) * duration`, written to
`audio.currentTime` and to the `currentTime` state cell. -/
def handleProgressClick (w : WidgetState) (a : AudioState)
    (clientX rectLeft width : ℚ) : WidgetState × AudioState :=
  if w.duration = 0 then (w, a)
  else
    let x := clientX - rectLeft
    let newTime := x / width * w.duration
    ({ w with currentTime := newTime }, { a with currentTime := newTime })

/-- `handleVolumeChange`: `setVolume(parseInt(e.target.value))`; the range
control supplies the integer value. -/
def handleVolumeChange (w : WidgetState) (v : ℤ) : WidgetState :=
  { w with volume := v }

/-- `handleSkipBack`: `audio.currentTime = Math.max(0, audio.currentTime - 10)`. -/
def handleSkipBack (a : AudioState) : AudioState :=
  { a with currentTime := max 0 (a.currentTime - 10) }

/-- `handleSkipForward`: `audio.currentTime = Math.min(duration, audio.currentTime + 10)`;
`duration` is the widget state cell. -/
def handleSkipForward (w : WidgetState) (a : AudioState) : AudioState :=
  { a with currentTime := min w.duration (a.currentTime + 10) }

/-- The `useEffect` on `[isPlaying]`: issues `audio.play().catch(console.error)`
when playing, `audio.pause()` otherwise.  A rejected play appends its error
to the diagnostic log and changes nothing else. -/
def isPlayingEffect (w : WidgetState) (a : AudioState) (r : PlayResult)
    (log : List String) : WidgetState × AudioState × List String :=
  if w.isPlaying then
    match r with
    | PlayResult.fulfilled => (w, { a with paused := false }, log)
    | PlayResult.rejected msg => (w, a, log ++ [msg])
  else (w, { a with paused := true }, log)

/-- The `useEffect` on `[volume]`: `audio.volume = volume / 100`. -/
def volumeEffect (w : WidgetState) (a : AudioState) : AudioState :=
  { a with volume := (w.volume : ℚ) / 100 }

/-- JavaScript number truncation (`Math.trunc`, also what `%` divides by):
rounds toward zero. -/
def jsTrunc (q : ℚ) : ℤ :=
  if q < 0 then ⌈q⌉ else ⌊q⌋

/-- The JavaScript remainder operator on numbers:
`a % b = a - b * trunc(a / b)`. -/
def jsMod (a b : ℚ) : ℚ :=
  a - b * (jsTrunc (a / b) : ℚ)

/-- `String.padStart(2, '0')` from `formatTime`. -/
def padStart2 (str : String) : String :=
  if 2 ≤ str.length then str
  else String.mk (List.replicate (2 - str.length) '0') ++ str

/-- `formatTime`: `'0:00'` for NaN (modelled by `none`), otherwise
`Math.floor(seconds / 60)` : `Math.floor(seconds % 60)` zero-padded. -/
def formatTime (seconds : Option ℚ) : String :=
  match seconds with
  | none => "0:00"
  | some s =>
    let mins : ℤ := ⌊s / 60⌋
    let secs : ℤ := ⌊jsMod s 60⌋
    toString mins ++ ":" ++ padStart2 (toString secs)

/-- Combined system state: widget state cells, audio element, and the
diagnostic log written by `console.error`. -/
structure SysState where
  widget : WidgetState
  audio : AudioState
  log : List String
deriving DecidableEq, Repr

/-- The audio element as first rendered: position 0, duration not yet
known (reported on `loadedmetadata`), default volume, paused. -/
def initAudio : AudioState :=
  { currentTime := 0, duration := 0, volume := 1, paused := true }

/-- System state at mount, before any event. -/
def initSys : SysState :=
  { widget := initWidget, audio := initAudio, log := [] }

/-- Events of the widget state machine: the five media events the first
effect listens to, user gestures on the rendered controls, external media
state changes, and effect runs. -/
inductive Event where
  | timeUpdate : Event
  | loadedMetadata : Event
  | ended : Event
  | loadStart : Event
  | canPlay : Event
  | userPlayPause : Event
  | userProgressClick : ℚ → ℚ → ℚ → Event
  | userSetVolume : ℤ → Event
  | userSkipBack : Event
  | userSkipForward : Event
  | userToggleLike : Event
  | audioTick : ℚ → Event
  | audioMetadata : ℚ → Event
  | effectPlay : PlayResult → Event
  | effectVolume : Event
deriving DecidableEq, Repr

/-- One transition of the widget state machine.  The five listener cases
are the handlers registered by the first effect (`updateTime`,
`updateDuration`, `handleEnded`, `handleLoadStart`, `handleCanPlay`);
user cases call the click handlers; `audioTick`/`audioMetadata` are the
media element changing on its own; effect cases run the effect bodies. -/
def step (s : SysState) : Event → SysState
  | Event.timeUpdate =>
      { s with widget := { s.widget with currentTime := s.audio.currentTime } }
  | Event.loadedMetadata =>
      { s with widget := { s.widget with duration := s.audio.duration } }
  | Event.ended =>
      { s with widget := { s.widget with isPlaying := false } }
  | Event.loadStart =>
      { s with widget := { s.widget with isLoading := true } }
  | Event.canPlay =>
      { s with widget := { s.widget with isLoading := false } }
  | Event.userPlayPause =>
      { s with widget := handlePlayPause s.widget }
  | Event.userProgressClick clientX rectLeft width =>
      let wa := handleProgressClick s.widget s.audio clientX rectLeft width
      { s with widget := wa.1, audio := wa.2 }
  | Event.userSetVolume v =>
      { s with widget := handleVolumeChange s.widget v }
  | Event.userSkipBack =>
      { s with audio := handleSkipBack s.audio }
  | Event.userSkipForward =>
      { s with audio := handleSkipForward s.widget s.audio }
  | Event.userToggleLike =>
      { s with widget := { s.widget with isLiked := !s.widget.isLiked } }
  | Event.audioTick t =>
      { s with audio := { s.audio with currentTime := t } }
  | Event.audioMetadata d =>
      { s with audio := { s.audio with duration := d } }
  | Event.effectPlay r =>
      let wal := isPlayingEffect s.widget s.audio r s.log
      { widget := wal.1, audio := wal.2.1, log := wal.2.2 }
  | Event.effectVolume =>
      { s with audio := volumeEffect s.widget s.audio }

/-- Run a list of events from a state. -/
def steps (s : SysState) (es : List Event) : SysState :=
  es.foldl step s

/-- The five event names the first effect subscribes to, in the order of
the `addEventListener` calls (the `removeEventListener` calls in the
cleanup use the same order). -/
def audioEventNames : List String :=
  ["timeupdate", "loadedmetadata", "ended", "loadstart", "canplay"]

/-- A registered listener: (audio element identity, event name,
effect-run identity).  Each effect run creates fresh closures, so the run
identity distinguishes otherwise identical registrations. -/
abbrev Listener : Type := Nat × String × Nat

/-- One effect run: the five `addEventListener` calls on `audio`. -/
def attachRun (el run : Nat) (reg : List Listener) : List Listener :=
  reg ++ audioEventNames.map (fun ev => (el, ev, run))

/-- The cleanup of one effect run: the five `removeEventListener` calls,
each removing the matching registration. -/
def detachRun (el run : Nat) (reg : List Listener) : List Listener :=
  audioEventNames.foldl (fun r ev => r.erase (el, ev, run)) reg

/-- One dependency change of the `[audioSrc]` effect: React runs the
previous cleanup first, then the effect body on the new element with a
fresh run identity. -/
def remount (st : List Listener × Nat × Nat) (newEl : Nat) : List Listener × Nat × Nat :=
  (attachRun newEl (st.2.2 + 1) (detachRun st.2.1 st.2.2 st.1), newEl, st.2.2 + 1)

/-- React lifecycle of the `[audioSrc]` effect: the mount run attaches to
the first element; each dependency change remounts.  Returns
(registry, current element, current run). -/
def effectLifecycle (el0 : Nat) (swaps : List Nat) : List Listener × Nat × Nat :=
  swaps.foldl remount (attachRun el0 0 [], el0, 0)

/-! Helper lemmas. -/

/-- For a nonnegative argument, JavaScript truncation is the floor. -/
theorem jsTrunc_of_nonneg {q : ℚ} (h : 0 ≤ q) : jsTrunc q = ⌊q⌋ := by
  unfold jsTrunc
  rw [if_neg (not_lt.mpr h)]

/-- Floor of a rational divided by 60 is floor then integer division. -/
theorem floor_div_sixty (s : ℚ) : ⌊s / 60⌋ = ⌊s⌋ / 60 := by
  have hmr : 60 * (⌊s⌋ / 60) + ⌊s⌋ % 60 = ⌊s⌋ := Int.ediv_add_emod _ _
  have hr0 : 0 ≤ ⌊s⌋ % 60 := Int.emod_nonneg _ (by norm_num)
  have hr60 : ⌊s⌋ % 60 < 60 := Int.emod_lt_of_pos _ (by norm_num)
  have hfl : (⌊s⌋ : ℚ) ≤ s := Int.floor_le s
  have hfu : s < ⌊s⌋ + 1 := Int.lt_floor_add_one s
  have h60 : (60 : ℚ) * ((⌊s⌋ / 60 : ℤ) : ℚ) + ((⌊s⌋ % 60 : ℤ) : ℚ) = ((⌊s⌋ : ℤ) : ℚ) := by
    exact_mod_cast hmr
  have hr0Q : (0 : ℚ) ≤ ((⌊s⌋ % 60 : ℤ) : ℚ) := by exact_mod_cast hr0
  have hr60Q : ((⌊s⌋ % 60 : ℤ) : ℚ) < 60 := by exact_mod_cast hr60
  rw [Int.floor_eq_iff]
  constructor
  · rw [le_div_iff₀ (by norm_num : (0 : ℚ) < 60)]
    linarith
  · rw [div_lt_iff₀ (by norm_num : (0 : ℚ) < 60)]
    have hr59 : ⌊s⌋ % 60 ≤ 59 := by omega
    have hr59Q : ((⌊s⌋ % 60 : ℤ) : ℚ) ≤ 59 := by exact_mod_cast hr59
    linarith

/-- For a nonnegative number of seconds, the floor of the JavaScript
remainder by 60 is the integer remainder of the floor. -/
theorem floor_jsMod_sixty {s : ℚ} (hs : 0 ≤ s) : ⌊jsMod s 60⌋ = ⌊s⌋ % 60 := by
  unfold jsMod jsTrunc
  rw [if_neg (not_lt.mpr (div_nonneg hs (by norm_num)))]
  rw [floor_div_sixty]
  have hrw : s - 60 * ((⌊s⌋ / 60 : ℤ) : ℚ) = s - ((60 * (⌊s⌋ / 60) : ℤ) : ℚ) := by
    push_cast
    ring
  rw [hrw, Int.floor_sub_int]
  omega

/-- No event other than the play/pause gesture ever makes the widget
playing: every listener and effect either leaves `isPlaying` alone or
forces it to `false`. -/
theorem step_preserves_not_playing (s : SysState) (e : Event)
    (hne : e ≠ Event.userPlayPause) (h : s.widget.isPlaying = false) :
    (step s e).widget.isPlaying = false := by
  cases e
  case userPlayPause => exact absurd rfl hne
  case userProgressClick a b c =>
    simp only [step, handleProgressClick]
    split <;> exact h
  case effectPlay r =>
    cases r <;> (simp only [step, isPlayingEffect]; split <;> exact h)
  all_goals first | rfl | exact h

/-- `steps` version of `step_preserves_not_playing`. -/
theorem steps_preserves_not_playing (s : SysState) (es : List Event)
    (hne : ∀ e ∈ es, e ≠ Event.userPlayPause) (h : s.widget.isPlaying = false) :
    (steps s es).widget.isPlaying = false := by
  induction es generalizing s with
  | nil => exact h
  | cons x xs ih =>
    exact ih (step s x) (fun e he => hne e (List.mem_cons_of_mem x he))
      (step_preserves_not_playing s x (hne x (List.mem_cons_self x xs)) h)

/-- Every event other than a volume gesture leaves the volume cell alone. -/
theorem step_preserves_volume (s : SysState) (e : Event)
    (h : ∀ u : ℤ, e ≠ Event.userSetVolume u) :
    (step s e).widget.volume = s.widget.volume := by
  cases e
  case userSetVolume u => exact absurd rfl (h u)
  case userPlayPause =>
    simp only [step, handlePlayPause]
    split <;> rfl
  case userProgressClick a b c =>
    simp only [step, handleProgressClick]
    split <;> rfl
  case effectPlay r =>
    cases r <;> (simp only [step, isPlayingEffect]; split <;> rfl)
  all_goals rfl

/-- The cleanup of an effect run removes exactly the five listeners that
run registered, provided the run identity is fresh for the registry. -/
theorem detachRun_attachRun (el run : Nat) (reg : List Listener)
    (hfresh : ∀ p ∈ reg, p.2.2 ≠ run) :
    detachRun el run (attachRun el run reg) = reg := by
  have h1 : (el, "timeupdate", run) ∉ reg := fun hm => hfresh _ hm rfl
  have h2 : (el, "loadedmetadata", run) ∉ reg := fun hm => hfresh _ hm rfl
  have h3 : (el, "ended", run) ∉ reg := fun hm => hfresh _ hm rfl
  have h4 : (el, "loadstart", run) ∉ reg := fun hm => hfresh _ hm rfl
  have h5 : (el, "canplay", run) ∉ reg := fun hm => hfresh _ hm rfl
  simp only [detachRun, attachRun, audioEventNames, List.map_cons, List.map_nil,
    List.foldl_cons, List.foldl_nil]
  rw [List.erase_append_right _ h1, List.erase_cons_head,
    List.erase_append_right _ h2, List.erase_cons_head,
    List.erase_append_right _ h3, List.erase_cons_head,
    List.erase_append_right _ h4, List.erase_cons_head,
    List.erase_append_right _ h5, List.erase_cons_head,
    List.append_nil]

/-- After the mount run and any sequence of dependency changes, the
registry holds exactly the five listeners of the current run on the
current element. -/
theorem effectLifecycle_registry (el0 : Nat) (swaps : List Nat) :
    (effectLifecycle el0 swaps).1 =
      attachRun (effectLifecycle el0 swaps).2.1 (effectLifecycle el0 swaps).2.2 [] := by
  unfold effectLifecycle
  have key : ∀ (l : List Nat) (st : List Listener × Nat × Nat),
      st.1 = attachRun st.2.1 st.2.2 [] →
      (l.foldl remount st).1 =
        attachRun (l.foldl remount st).2.1 (l.foldl remount st).2.2 [] := by
    intro l
    induction l with
    | nil => intro st h; exact h
    | cons x xs ih =>
      intro st h
      simp only [List.foldl_cons]
      apply ih
      show attachRun x (st.2.2 + 1) (detachRun st.2.1 st.2.2 st.1) =
        attachRun x (st.2.2 + 1) []
      rw [h, detachRun_attachRun _ _ _ (fun p hp => absurd hp (List.not_mem_nil p))]
  exact key swaps (attachRun el0 0 [], el0, 0) rfl

/-! Claim theorems. -/

/-- Claim C1: with is-loading true the play/pause toggle leaves the whole
widget state unchanged; with is-loading false it negates is-playing and
changes nothing else. -/
theorem playPause_spec (w : WidgetState) :
    (w.isLoading = true → handlePlayPause w = w) ∧
    (w.isLoading = false → handlePlayPause w = { w with isPlaying := !w.isPlaying }) := by
  constructor <;> intro h <;> simp [handlePlayPause, h]

/-- Witness for C1 at concrete states. -/
theorem playPause_spec_witness :
    handlePlayPause { initWidget with isLoading := true } = { initWidget with isLoading := true } ∧
    handlePlayPause initWidget = { initWidget with isPlaying := true } := by
  constructor
  · exact (playPause_spec { initWidget with isLoading := true }).1 rfl
  · have h := (playPause_spec initWidget).2 rfl
    rw [h]
    rfl

/-- Claim C2: a rejected play command is caught, its error is appended to
the diagnostic log, and neither the widget state nor the audio element
changes; in particular is-playing stays true. -/
theorem playRejected_spec (w : WidgetState) (a : AudioState)
    (log : List String) (msg : String) (h : w.isPlaying = true) :
    isPlayingEffect w a (PlayResult.rejected msg) log = (w, a, log ++ [msg]) ∧
    (isPlayingEffect w a (PlayResult.rejected msg) log).1.isPlaying = true := by
  have he : isPlayingEffect w a (PlayResult.rejected msg) log = (w, a, log ++ [msg]) := by
    simp [isPlayingEffect, h]
  refine ⟨he, ?_⟩
  rw [he]
  exact h

/-- Witness for C2 at a concrete rejected play. -/
theorem playRejected_spec_witness :
    isPlayingEffect { initWidget with isPlaying := true } initAudio
        (PlayResult.rejected "NotAllowedError") [] =
      ({ initWidget with isPlaying := true }, initAudio, ["NotAllowedError"]) := by
  have h := (playRejected_spec { initWidget with isPlaying := true } initAudio []
    "NotAllowedError" rfl).1
  simpa using h

/-- Claim C3 counterexample: the toggle is enabled before the first
load-start (is-loading starts false), so the user can start playback,
then load-start and can-play arrive; on that can-play transition out of
loading, is-playing is true, not false. -/
theorem canPlay_playing_counterexample :
    (steps initSys [Event.userPlayPause, Event.loadStart]).widget.isLoading = true ∧
    (steps initSys [Event.userPlayPause, Event.loadStart]).widget.isPlaying = true ∧
    (steps initSys [Event.userPlayPause, Event.loadStart, Event.canPlay]).widget.isLoading = false ∧
    (steps initSys [Event.userPlayPause, Event.loadStart, Event.canPlay]).widget.isPlaying = true := by
  decide

/-- Claim C3 (amended): provided is-playing is false when the load start
occurs, it is false on the following can-play transition and remains
false under any further events until the user next uses the play/pause
toggle. -/
theorem canPlay_paused_amended (s : SysState) (mid post : List Event)
    (h : s.widget.isPlaying = false)
    (hmid : Event.userPlayPause ∉ mid)
    (hpost : Event.userPlayPause ∉ post) :
    (step (steps (step s Event.loadStart) mid) Event.canPlay).widget.isPlaying = false ∧
    (steps (step (steps (step s Event.loadStart) mid) Event.canPlay) post).widget.isPlaying
      = false := by
  have h1 : (step s Event.loadStart).widget.isPlaying = false :=
    step_preserves_not_playing s _ (by decide) h
  have h2 : (steps (step s Event.loadStart) mid).widget.isPlaying = false :=
    steps_preserves_not_playing _ mid (fun e he heq => hmid (heq ▸ he)) h1
  have h3 : (step (steps (step s Event.loadStart) mid) Event.canPlay).widget.isPlaying = false :=
    step_preserves_not_playing _ _ (by decide) h2
  exact ⟨h3, steps_preserves_not_playing _ post (fun e he heq => hpost (heq ▸ he)) h3⟩

/-- Witness for the amended C3 on the initial state with empty
surrounding event lists. -/
theorem canPlay_paused_amended_witness :
    (step (steps (step initSys Event.loadStart) []) Event.canPlay).widget.isPlaying = false ∧
    (steps (step (steps (step initSys Event.loadStart) []) Event.canPlay) []).widget.isPlaying
      = false :=
  canPlay_paused_amended initSys [] [] rfl (by simp) (by simp)

/-- Claim C4: skip-back sets the playback position to
max(0, position − 10) and skip-forward to min(duration, position + 10);
at position d − 3 skip-forward lands on d, at position 4 skip-back lands
on 0. -/
theorem skip_spec (w : WidgetState) (a : AudioState) :
    (handleSkipBack a).currentTime = max 0 (a.currentTime - 10) ∧
    (handleSkipForward w a).currentTime = min w.duration (a.currentTime + 10) ∧
    (∀ d : ℚ,
      (handleSkipForward { w with duration := d }
        { a with currentTime := d - 3 }).currentTime = d) ∧
    (handleSkipBack { a with currentTime := 4 }).currentTime = 0 := by
  refine ⟨rfl, rfl, fun d => ?_, ?_⟩
  · show min d (d - 3 + 10) = d
    rw [min_eq_left (by linarith)]
  · show max 0 ((4 : ℚ) - 10) = 0
    rw [max_eq_left (by norm_num)]

/-- Claim C5: with a known non-zero duration, clicking the progress
track at offset x inside a track of positive width w seeks to
(x / w) · duration and shows the same value as current position; with
duration unknown (zero) the click is a no-op. -/
theorem progressClick_spec (w : WidgetState) (a : AudioState)
    (clientX rectLeft width : ℚ) (hw : 0 < width) :
    (w.duration ≠ 0 →
      handleProgressClick w a clientX rectLeft width =
        ({ w with currentTime := (clientX - rectLeft) / width * w.duration },
         { a with currentTime := (clientX - rectLeft) / width * w.duration })) ∧
    (w.duration = 0 →
      handleProgressClick w a clientX rectLeft width = (w, a)) := by
  constructor <;> intro h <;> simp [handleProgressClick, h]

/-- Witness for C5: a click at offset 100 of a 400-wide track with
duration 200 seeks to 50, and a click with duration 0 is a no-op. -/
theorem progressClick_spec_witness :
    handleProgressClick { initWidget with duration := 200 } initAudio 150 50 400 =
      ({ initWidget with duration := 200, currentTime := 50 },
       { initAudio with currentTime := 50 }) ∧
    handleProgressClick initWidget initAudio 150 50 400 = (initWidget, initAudio) := by
  constructor
  · have h := (progressClick_spec { initWidget with duration := 200 } initAudio 150 50 400
      (by norm_num)).1 (by norm_num)
    rw [h, (by norm_num : ((150 : ℚ) - 50) / 400 * 200 = 50)]
  · exact (progressClick_spec initWidget initAudio 150 50 400 (by norm_num)).2 rfl

/-- Claim C6: setting the slider to v makes the displayed volume v and
the audio element volume v / 100, and the volume cell stays within
[0, 100] under every event whose volume payload (if any) is in range. -/
theorem volume_spec (w : WidgetState) (a : AudioState) (v : ℤ)
    (h0 : 0 ≤ v) (h100 : v ≤ 100) :
    (handleVolumeChange w v).volume = v ∧
    (volumeEffect (handleVolumeChange w v) a).volume = (v : ℚ) / 100 ∧
    ∀ (s : SysState) (e : Event),
      0 ≤ s.widget.volume → s.widget.volume ≤ 100 →
      (∀ u : ℤ, e = Event.userSetVolume u → 0 ≤ u ∧ u ≤ 100) →
      0 ≤ (step s e).widget.volume ∧ (step s e).widget.volume ≤ 100 := by
  refine ⟨rfl, rfl, ?_⟩
  intro s e hl hu hr
  by_cases hc : ∃ u : ℤ, e = Event.userSetVolume u
  · obtain ⟨u, rfl⟩ := hc
    have hu' := hr u rfl
    simpa [step, handleVolumeChange] using hu'
  · push_neg at hc
    rw [step_preserves_volume s e hc]
    exact ⟨hl, hu⟩

/-- Witness for C6 at v = 50. -/
theorem volume_spec_witness :
    (handleVolumeChange initWidget 50).volume = 50 ∧
    (volumeEffect (handleVolumeChange initWidget 50) initAudio).volume = (50 : ℚ) / 100 := by
  have h := volume_spec initWidget initAudio 50 (by norm_num) (by norm_num)
  exact ⟨h.1, h.2.1⟩

/-- Claim C7: formatTime renders NaN (modelled by none) as 0:00, and a
nonnegative number of seconds s as floor(s / 60), a colon, and
floor(s) mod 60 zero-padded to two digits; formatTime 0 = 0:00 and
formatTime 65 = 1:05. -/
theorem formatTime_spec :
    formatTime none = "0:00" ∧
    formatTime (some 0) = "0:00" ∧
    formatTime (some 65) = "1:05" ∧
    ∀ s : ℚ, 0 ≤ s →
      formatTime (some s) =
        toString ⌊s / 60⌋ ++ ":" ++ padStart2 (toString (⌊s⌋ % 60)) := by
  have hgen : ∀ s : ℚ, 0 ≤ s → formatTime (some s) =
      toString ⌊s / 60⌋ ++ ":" ++ padStart2 (toString (⌊s⌋ % 60)) := by
    intro s hs
    show toString ⌊s / 60⌋ ++ ":" ++ padStart2 (toString ⌊jsMod s 60⌋) =
      toString ⌊s / 60⌋ ++ ":" ++ padStart2 (toString (⌊s⌋ % 60))
    rw [floor_jsMod_sixty hs]
  refine ⟨rfl, ?_, ?_, hgen⟩
  · rw [hgen 0 le_rfl, (by norm_num : ⌊(0 : ℚ) / 60⌋ = 0), (by norm_num : ⌊(0 : ℚ)⌋ = 0)]
    decide
  · rw [hgen 65 (by norm_num), (by norm_num : ⌊(65 : ℚ) / 60⌋ = 1),
      (by norm_num : ⌊(65 : ℚ)⌋ = 65)]
    decide

/-- Witness for C7 at s = 125. -/
theorem formatTime_spec_witness :
    (0 : ℚ) ≤ 125 ∧ formatTime (some 125) = "2:05" := by
  refine ⟨by norm_num, ?_⟩
  rw [formatTime_spec.2.2.2 125 (by norm_num), (by norm_num : ⌊(125 : ℚ) / 60⌋ = 2),
    (by norm_num : ⌊(125 : ℚ)⌋ = 125)]
  decide

/-- Claim C8: the ended event forces is-playing to false from every
prior state. -/
theorem ended_spec (s : SysState) :
    (step s Event.ended).widget.isPlaying = false := rfl

/-- Claim C10: at mount, before any event, the widget state is exactly
is-playing false, position 0, duration 0, volume 75, is-liked false,
is-loading false. -/
theorem init_spec :
    (steps initSys []).widget = initWidget ∧
    initWidget.isPlaying = false ∧ initWidget.currentTime = 0 ∧
    initWidget.duration = 0 ∧ initWidget.volume = 75 ∧
    initWidget.isLiked = false ∧ initWidget.isLoading = false :=
  ⟨rfl, rfl, rfl, rfl, rfl, rfl, rfl⟩

/-- Claim C9: after the mount run and any sequence of resource swaps,
each handled by running the previous cleanup before re-attaching, the
registry holds listeners only for the current element, exactly one per
subscribed event name (so no duplicate delivery), and the unmount
cleanup removes them all. -/
theorem listener_lifecycle_spec (el0 : Nat) (swaps : List Nat) :
    (∀ p ∈ (effectLifecycle el0 swaps).1, p.1 = (effectLifecycle el0 swaps).2.1) ∧
    ((effectLifecycle el0 swaps).1.map (fun p => p.2.1) = audioEventNames) ∧
    detachRun (effectLifecycle el0 swaps).2.1 (effectLifecycle el0 swaps).2.2
      (effectLifecycle el0 swaps).1 = [] := by
  have hreg := effectLifecycle_registry el0 swaps
  refine ⟨?_, ?_, ?_⟩
  · intro p hp
    rw [hreg] at hp
    simp only [attachRun, audioEventNames, List.nil_append, List.map_cons, List.map_nil,
      List.mem_cons, List.not_mem_nil, or_false] at hp
    rcases hp with h | h | h | h | h <;> rw [h]
  · rw [hreg]
    simp [attachRun, audioEventNames]
  · rw [hreg]
    exact detachRun_attachRun _ _ _ (fun p hp => absurd hp (List.not_mem_nil p))

/-- Witness for C9: mount on element 0, swap once to element 1. -/
theorem listener_lifecycle_spec_witness :
    ((1, "timeupdate", 1) : Listener).1 = (effectLifecycle 0 [1]).2.1 ∧
    ((effectLifecycle 0 [1]).1.map (fun p => p.2.1) = audioEventNames) ∧
    detachRun (effectLifecycle 0 [1]).2.1 (effectLifecycle 0 [1]).2.2
      (effectLifecycle 0 [1]).1 = [] :=
  ⟨(listener_lifecycle_spec 0 [1]).1 (1, "timeupdate", 1) (by decide),
   (listener_lifecycle_spec 0 [1]).2.1,
   (listener_lifecycle_spec 0 [1]).2.2⟩

end MusicApp
